import Mathlib

/-!
Verification of duplistatus: overdue-detection engine, API-key route
handlers, and IP-whitelist middleware.

The overdue engine (detector, notification state tracker, dispatcher,
task scheduler) lives in the cron service of the repository, whose sources are
not part of this snapshot; those components are modelled from the spec.
The API-key handlers and the IP-whitelist middleware are embedded from
the TypeScript source.
-/

/-! ## Overdue detector (spec-modelled) -/

/-- Modelled from the spec: one historical run of a backup job, with its
timestamp (seconds) and whether it succeeded. The cron-service source is
missing from the snapshot. -/
structure RunRecord where
  timestamp : Nat
  success : Bool
deriving DecidableEq, Repr

/-- Modelled from the spec: the historical run records of a backup job,
ordered most-recent-first. -/
structure BackupJob where
  history : List RunRecord
deriving DecidableEq, Repr

/-- Modelled from the spec: per-job schedule configuration — enabled
flag, optional explicit expected interval (seconds), tolerance window,
notification-on-recovery toggle, optional re-notify escalation
interval. -/
structure ScheduleConfig where
  enabled : Bool
  interval : Option Nat
  tolerance : Nat
  recoveryNotice : Bool
  escalationInterval : Option Nat
deriving DecidableEq, Repr

/-- Modelled from the spec: the derived per-job overdue status computed
each tick. `insufficientHistory` is the separate visibility flag for
jobs with no prior successful run. -/
structure OverdueState where
  isOverdue : Bool
  expectedAt : Nat
  lastSeenAt : Nat
  insufficientHistory : Bool
deriving DecidableEq, Repr

/-- Modelled from the spec: timestamp of the last successful run of the job
(history is most-recent-first). -/
def lastSuccessfulRun (job : BackupJob) : Option Nat :=
  ((job.history.filter (fun r => r.success)).head?).map (fun r => r.timestamp)

/-- Modelled from the spec: expected interval inferred from the
most-recent gap between the last successful runs of the job, used when no
explicit interval is configured. -/
def inferredInterval (job : BackupJob) : Nat :=
  match (job.history.filter (fun r => r.success)).map (fun r => r.timestamp) with
  | t1 :: t2 :: _ => t1 - t2
  | _ => 0

/-- Modelled from the spec: the expected interval — explicit
configuration when present, otherwise inferred from history. -/
def effectiveInterval (cfg : ScheduleConfig) (job : BackupJob) : Nat :=
  match cfg.interval with
  | some i => i
  | none => inferredInterval job

/-- Modelled from the spec: the pure evaluation of the Overdue Detector.
A job with no prior successful run is never overdue but flagged for
visibility; a disabled config always yields not-overdue; otherwise
`expectedAt = lastSeenAt + interval + tolerance` and
`isOverdue = now > expectedAt`. -/
def evaluate (job : BackupJob) (cfg : ScheduleConfig) (now : Nat) : OverdueState :=
  match lastSuccessfulRun job with
  | none =>
      { isOverdue := false, expectedAt := 0, lastSeenAt := 0, insufficientHistory := true }
  | some lastSeen =>
      let expected := lastSeen + effectiveInterval cfg job + cfg.tolerance
      if cfg.enabled then
        { isOverdue := decide (now > expected), expectedAt := expected,
          lastSeenAt := lastSeen, insufficientHistory := false }
      else
        { isOverdue := false, expectedAt := expected,
          lastSeenAt := lastSeen, insufficientHistory := false }

/-- Job used by Scenario A/B of the spec: a single successful run at
time 0, evaluated 26 hours (93600 s) later. -/
def scenarioJob : BackupJob := ⟨[⟨0, true⟩]⟩

/-- Scenario A config: interval 24 h, tolerance 1 h. -/
def scenarioCfgA : ScheduleConfig :=
  { enabled := true, interval := some 86400, tolerance := 3600,
    recoveryNotice := false, escalationInterval := none }

/-- Scenario B config: interval 24 h, tolerance 3 h. -/
def scenarioCfgB : ScheduleConfig :=
  { enabled := true, interval := some 86400, tolerance := 10800,
    recoveryNotice := false, escalationInterval := none }

/-- Claim C1: for every job with a prior successful run and an enabled
schedule config with expected interval I and tolerance T, `evaluate`
returns `expectedAt = lastSeenAt + I + T` and `isOverdue = (now >
expectedAt)`; in particular with a job last seen 26 h ago, interval
24 h and tolerance 1 h it is overdue with `expectedAt = lastSeenAt +
25 h`, while with tolerance 3 h it is not overdue at hour 26. -/
theorem evaluate_expectedAt_formula (job : BackupJob) (cfg : ScheduleConfig)
    (now lastSeen i : Nat)
    (hen : cfg.enabled = true)
    (hlast : lastSuccessfulRun job = some lastSeen)
    (hint : effectiveInterval cfg job = i) :
    (evaluate job cfg now).lastSeenAt = lastSeen ∧
    (evaluate job cfg now).expectedAt = lastSeen + i + cfg.tolerance ∧
    ((evaluate job cfg now).isOverdue = true ↔ now > (evaluate job cfg now).expectedAt) ∧
    ((evaluate scenarioJob scenarioCfgA 93600).isOverdue = true ∧
      (evaluate scenarioJob scenarioCfgA 93600).expectedAt =
        (evaluate scenarioJob scenarioCfgA 93600).lastSeenAt + 90000) ∧
    (evaluate scenarioJob scenarioCfgB 93600).isOverdue = false := by
  subst hint
  refine ⟨?_, ?_, ?_, by decide, by decide⟩ <;>
    simp [evaluate, hlast, hen]

/-- Witness for C1 at the concrete Scenario A job and configuration. -/
theorem evaluate_expectedAt_formula_witness :
    (evaluate scenarioJob scenarioCfgA 93600).lastSeenAt = 0 ∧
    (evaluate scenarioJob scenarioCfgA 93600).expectedAt = 0 + 86400 + scenarioCfgA.tolerance ∧
    ((evaluate scenarioJob scenarioCfgA 93600).isOverdue = true ↔
      93600 > (evaluate scenarioJob scenarioCfgA 93600).expectedAt) ∧
    ((evaluate scenarioJob scenarioCfgA 93600).isOverdue = true ∧
      (evaluate scenarioJob scenarioCfgA 93600).expectedAt =
        (evaluate scenarioJob scenarioCfgA 93600).lastSeenAt + 90000) ∧
    (evaluate scenarioJob scenarioCfgB 93600).isOverdue = false :=
  evaluate_expectedAt_formula scenarioJob scenarioCfgA 93600 0 86400
    (by decide) (by decide) (by decide)

/-- Claim C3: a job with no prior successful run is never marked
overdue, for every config and every now; it is flagged separately via
`insufficientHistory`. -/
theorem evaluate_no_success_never_overdue (job : BackupJob) (cfg : ScheduleConfig)
    (now : Nat) (h : lastSuccessfulRun job = none) :
    (evaluate job cfg now).isOverdue = false ∧
    (evaluate job cfg now).insufficientHistory = true := by
  simp [evaluate, h]

/-- Witness for C3 at a job with an empty history. -/
theorem evaluate_no_success_never_overdue_witness :
    (evaluate ⟨[]⟩ scenarioCfgA 93600).isOverdue = false ∧
    (evaluate ⟨[]⟩ scenarioCfgA 93600).insufficientHistory = true :=
  evaluate_no_success_never_overdue ⟨[]⟩ scenarioCfgA 93600 (by decide)

/-- Claim C7: a disabled schedule config always yields `isOverdue =
false`, for every history and every now. -/
theorem evaluate_disabled_never_overdue (job : BackupJob) (cfg : ScheduleConfig)
    (now : Nat) (h : cfg.enabled = false) :
    (evaluate job cfg now).isOverdue = false := by
  unfold evaluate
  cases hl : lastSuccessfulRun job <;> simp [h]

/-- Witness for C7 at a long-overdue job with a disabled config. -/
theorem evaluate_disabled_never_overdue_witness :
    (evaluate scenarioJob
      { enabled := false, interval := some 60, tolerance := 0,
        recoveryNotice := false, escalationInterval := none } 999999999).isOverdue = false :=
  evaluate_disabled_never_overdue scenarioJob
    { enabled := false, interval := some 60, tolerance := 0,
      recoveryNotice := false, escalationInterval := none } 999999999 (by decide)

/-! ## Notification state tracker (spec-modelled) -/

/-- Modelled from the spec: the persisted per-job notification record —
`notifiedAt` and `episodeStartedAt`, both nullable. The cron-service
source is missing from the snapshot. -/
structure NotificationRecord where
  notifiedAt : Option Nat
  episodeStartedAt : Option Nat
deriving DecidableEq, Repr

/-- Modelled from the spec: whether the Job History Store shows a new
successful run strictly after the given episode start. -/
def hasSuccessAfter (job : BackupJob) (e : Nat) : Bool :=
  job.history.any (fun r => r.success && decide (e < r.timestamp))

/-- Modelled from the spec: whether the re-notify escalation interval
has elapsed since `notifiedAt`. -/
def escalationDue (cfg : ScheduleConfig) (notifiedAt now : Nat) : Bool :=
  match cfg.escalationInterval with
  | none => false
  | some n => decide (now - notifiedAt > n)

/-- Modelled from the spec: the observable outcome of one overdue-check
tick for one job — the new persisted record, how many primary overdue
notifications were delivered and attempted, how many recovery notices
were sent, how many dispatch failures were logged, and whether a
persisted state write occurred. -/
structure TickResult where
  record : NotificationRecord
  primarySent : Nat
  primaryAttempts : Nat
  recoverySent : Nat
  failuresLogged : Nat
  wrote : Bool
deriving DecidableEq, Repr

/-- Modelled from the spec: one overdue-check tick of the Notification
State Tracker for one job. `deliverOk` abstracts the overall Dispatcher outcome for this tick (success iff at least one channel
succeeded). Transitions: Open → Clear on a new successful run after the
episode start (optional recovery notice); Clear → Open when overdue (the
Open state is persisted regardless of delivery outcome, with
`notifiedAt` unset on failure); Open with pending delivery retries
dispatch without opening a new episode; Open → Open re-arms dispatch
only when the escalation interval has elapsed, otherwise it is a
no-op. -/
def tickJob (rec : NotificationRecord) (job : BackupJob) (cfg : ScheduleConfig)
    (now : Nat) (deliverOk : Bool) : TickResult :=
  match rec.episodeStartedAt with
  | some e =>
      if hasSuccessAfter job e then
        { record := ⟨none, none⟩, primarySent := 0, primaryAttempts := 0,
          recoverySent := if cfg.recoveryNotice then 1 else 0,
          failuresLogged := 0, wrote := true }
      else if (evaluate job cfg now).isOverdue then
        match rec.notifiedAt with
        | none =>
            if deliverOk then
              { record := ⟨some now, some e⟩, primarySent := 1, primaryAttempts := 1,
                recoverySent := 0, failuresLogged := 0, wrote := true }
            else
              { record := rec, primarySent := 0, primaryAttempts := 1,
                recoverySent := 0, failuresLogged := 1, wrote := false }
        | some t =>
            if escalationDue cfg t now then
              if deliverOk then
                { record := ⟨some now, some e⟩, primarySent := 1, primaryAttempts := 1,
                  recoverySent := 0, failuresLogged := 0, wrote := true }
              else
                { record := rec, primarySent := 0, primaryAttempts := 1,
                  recoverySent := 0, failuresLogged := 1, wrote := false }
            else
              { record := rec, primarySent := 0, primaryAttempts := 0,
                recoverySent := 0, failuresLogged := 0, wrote := false }
      else
        { record := rec, primarySent := 0, primaryAttempts := 0,
          recoverySent := 0, failuresLogged := 0, wrote := false }
  | none =>
      if (evaluate job cfg now).isOverdue then
        if deliverOk then
          { record := ⟨some now, some now⟩, primarySent := 1, primaryAttempts := 1,
            recoverySent := 0, failuresLogged := 0, wrote := true }
        else
          { record := ⟨none, some now⟩, primarySent := 0, primaryAttempts := 1,
            recoverySent := 0, failuresLogged := 1, wrote := true }
      else
        { record := rec, primarySent := 0, primaryAttempts := 0,
          recoverySent := 0, failuresLogged := 0, wrote := false }

/-- Summary of running the tick over a sequence of times: final record,
total primary notifications delivered, total persisted writes. -/
structure RunSummary where
  record : NotificationRecord
  sent : Nat
  writes : Nat
deriving DecidableEq, Repr

/-- Modelled from the spec: run the overdue-check tick at each time in
`times` in order, with unchanged job history, accumulating delivered
primary notifications and persisted state writes. -/
def runTicks (job : BackupJob) (cfg : ScheduleConfig) (deliverOk : Bool)
    (rec : NotificationRecord) : List Nat → RunSummary
  | [] => ⟨rec, 0, 0⟩
  | now :: rest =>
      let r := tickJob rec job cfg now deliverOk
      let s := runTicks job cfg deliverOk r.record rest
      ⟨s.record, r.primarySent + s.sent, (if r.wrote then 1 else 0) + s.writes⟩

/-- Helper: from an already-notified open record, ticks on which the job
stays overdue with no recovery and no due escalation are no-ops. -/
theorem runTicks_open_noop (job : BackupJob) (cfg : ScheduleConfig) (d : Bool)
    (n0 : Nat) (hrec : hasSuccessAfter job n0 = false) :
    ∀ times : List Nat,
      (∀ n ∈ times, (evaluate job cfg n).isOverdue = true ∧ escalationDue cfg n0 n = false) →
      runTicks job cfg d ⟨some n0, some n0⟩ times = ⟨⟨some n0, some n0⟩, 0, 0⟩ := by
  intro times
  induction times with
  | nil => intro _; rfl
  | cons n rest ih =>
      intro h
      have hn := h n (List.mem_cons_self n rest)
      have hrest : ∀ m ∈ rest, (evaluate job cfg m).isOverdue = true ∧
          escalationDue cfg n0 m = false :=
        fun m hm => h m (List.mem_cons_of_mem n hm)
      simp only [runTicks, tickJob, hrec, hn.1, hn.2, Bool.false_eq_true, if_false, if_true]
      rw [ih hrest]
      rfl

/-- Claim C2: a job continuously overdue across any number of
consecutive ticks with unchanged history gets exactly one primary
notification and exactly one persisted state write (the first pass),
until recovery or escalation; and the Open → Open transition is a no-op
with no new dispatch. -/
theorem tick_at_most_one_notification (job : BackupJob) (cfg : ScheduleConfig)
    (n0 : Nat) (times : List Nat)
    (h0 : (evaluate job cfg n0).isOverdue = true)
    (hrec : hasSuccessAfter job n0 = false)
    (hts : ∀ n ∈ times, (evaluate job cfg n).isOverdue = true ∧
      escalationDue cfg n0 n = false) :
    runTicks job cfg true ⟨none, none⟩ (n0 :: times) = ⟨⟨some n0, some n0⟩, 1, 1⟩ ∧
    (∀ n, (evaluate job cfg n).isOverdue = true → escalationDue cfg n0 n = false →
      tickJob ⟨some n0, some n0⟩ job cfg n true =
        ⟨⟨some n0, some n0⟩, 0, 0, 0, 0, false⟩) := by
  constructor
  · simp only [runTicks, tickJob, h0, if_true]
    rw [runTicks_open_noop job cfg true n0 hrec times hts]
    rfl
  · intro n h1 h2
    simp [tickJob, hrec, h1, h2]

/-- Witness for C2: the Scenario A job stays overdue across three ticks
five minutes apart; one notification, one write, then no-ops. -/
theorem tick_at_most_one_notification_witness :
    runTicks scenarioJob scenarioCfgA true ⟨none, none⟩ [93600, 93900, 94200] =
      ⟨⟨some 93600, some 93600⟩, 1, 1⟩ ∧
    tickJob ⟨some 93600, some 93600⟩ scenarioJob scenarioCfgA 94500 true =
      ⟨⟨some 93600, some 93600⟩, 0, 0, 0, 0, false⟩ :=
  ⟨(tick_at_most_one_notification scenarioJob scenarioCfgA 93600 [93900, 94200]
      (by decide) (by decide) (by decide)).1,
    (tick_at_most_one_notification scenarioJob scenarioCfgA 93600 [93900, 94200]
      (by decide) (by decide) (by decide)).2 94500 (by decide) (by decide)⟩

/-- Claim C4: when the send on every channel fails on first detection the
record is still persisted as Open with `notifiedAt` unset and the
failure logged, no primary notification is delivered, and the next tick
attempts delivery again without opening a new episode. -/
theorem dispatch_failure_keeps_open (job : BackupJob) (cfg : ScheduleConfig)
    (now now2 : Nat) (d2 : Bool)
    (h1 : (evaluate job cfg now).isOverdue = true)
    (h2 : (evaluate job cfg now2).isOverdue = true)
    (hrec : hasSuccessAfter job now = false) :
    (tickJob ⟨none, none⟩ job cfg now false).record = ⟨none, some now⟩ ∧
    (tickJob ⟨none, none⟩ job cfg now false).wrote = true ∧
    (tickJob ⟨none, none⟩ job cfg now false).failuresLogged = 1 ∧
    (tickJob ⟨none, none⟩ job cfg now false).primarySent = 0 ∧
    (tickJob ⟨none, some now⟩ job cfg now2 d2).primaryAttempts = 1 ∧
    (tickJob ⟨none, some now⟩ job cfg now2 d2).record.episodeStartedAt = some now := by
  refine ⟨?_, ?_, ?_, ?_, ?_, ?_⟩ <;>
    cases d2 <;> simp [tickJob, h1, h2, hrec]

/-- Witness for C4: the Scenario A job at hour 26 with all channels
failing, retried at hour 26:05. -/
theorem dispatch_failure_keeps_open_witness :
    (tickJob ⟨none, none⟩ scenarioJob scenarioCfgA 93600 false).record = ⟨none, some 93600⟩ ∧
    (tickJob ⟨none, none⟩ scenarioJob scenarioCfgA 93600 false).wrote = true ∧
    (tickJob ⟨none, none⟩ scenarioJob scenarioCfgA 93600 false).failuresLogged = 1 ∧
    (tickJob ⟨none, none⟩ scenarioJob scenarioCfgA 93600 false).primarySent = 0 ∧
    (tickJob ⟨none, some 93600⟩ scenarioJob scenarioCfgA 93900 true).primaryAttempts = 1 ∧
    (tickJob ⟨none, some 93600⟩ scenarioJob scenarioCfgA 93900 true).record.episodeStartedAt =
      some 93600 :=
  dispatch_failure_keeps_open scenarioJob scenarioCfgA 93600 93900 true
    (by decide) (by decide) (by decide)

/-- Claim C6: an open episode is cleared on the very next tick once the
history shows a successful run after `episodeStartedAt`: both record
fields become null, no primary notification goes out, and with the
recovery toggle enabled exactly one recovery notice is dispatched. -/
theorem recovery_clears_record (job : BackupJob) (cfg : ScheduleConfig)
    (rec : NotificationRecord) (now e : Nat) (d : Bool)
    (hopen : rec.episodeStartedAt = some e)
    (hsucc : hasSuccessAfter job e = true) :
    (tickJob rec job cfg now d).record = ⟨none, none⟩ ∧
    (tickJob rec job cfg now d).primarySent = 0 ∧
    (tickJob rec job cfg now d).recoverySent = (if cfg.recoveryNotice then 1 else 0) ∧
    (cfg.recoveryNotice = true → (tickJob rec job cfg now d).recoverySent = 1) := by
  obtain ⟨nt, es⟩ := rec
  simp only [NotificationRecord.mk.injEq] at hopen
  subst hopen
  refine ⟨?_, ?_, ?_, ?_⟩ <;> simp [tickJob, hsucc]

/-- Configuration used by the C6 witness: recovery toggle enabled. -/
def recoveryCfg : ScheduleConfig :=
  { enabled := true, interval := some 86400, tolerance := 3600,
    recoveryNotice := true, escalationInterval := none }

/-- Job used by the C6 witness: a successful run at hour 27 after the
episode opened at hour 26. -/
def recoveredJob : BackupJob := ⟨[⟨97200, true⟩, ⟨0, true⟩]⟩

/-- Witness for C6: open episode started at hour 26, a successful run
arrives at hour 27, recovery toggle enabled. -/
theorem recovery_clears_record_witness :
    (tickJob ⟨some 93600, some 93600⟩ recoveredJob recoveryCfg 97500 true).record =
      ⟨none, none⟩ ∧
    (tickJob ⟨some 93600, some 93600⟩ recoveredJob recoveryCfg 97500 true).primarySent = 0 ∧
    (tickJob ⟨some 93600, some 93600⟩ recoveredJob recoveryCfg 97500 true).recoverySent =
      (if recoveryCfg.recoveryNotice then 1 else 0) ∧
    (recoveryCfg.recoveryNotice = true →
      (tickJob ⟨some 93600, some 93600⟩ recoveredJob recoveryCfg 97500 true).recoverySent = 1) :=
  recovery_clears_record recoveredJob recoveryCfg
    ⟨some 93600, some 93600⟩ 97500 93600 true (by decide) (by decide)

/-! ## Task scheduler (spec-modelled) -/

/-- Modelled from the spec: the per-task scheduler state — the number
of invocations of that task currently executing. The cron-service
source is missing from the snapshot. -/
structure TaskState where
  runCount : Nat
deriving DecidableEq, Repr

/-- Modelled from the spec: events affecting one named task — a
scheduled tick firing, a manual trigger request, or a running
invocation completing. -/
inductive SchedEvent where
  | tick : SchedEvent
  | manual : SchedEvent
  | finish : SchedEvent
deriving DecidableEq, Repr

/-- Modelled from the spec: the synchronous result of a manual
trigger. -/
structure TriggerResult where
  accepted : Bool
  reason : Option String
deriving DecidableEq, Repr

/-- Modelled from the spec: state transition for one task. A scheduled
tick or manual trigger starts a run only when the task is idle; a tick
fired while the task runs is skipped (state unchanged, nothing queued);
finishing decrements the running count. -/
def schedStep (s : TaskState) : SchedEvent → TaskState
  | SchedEvent.tick => if s.runCount = 0 then ⟨1⟩ else s
  | SchedEvent.manual => if s.runCount = 0 then ⟨1⟩ else s
  | SchedEvent.finish => ⟨s.runCount - 1⟩

/-- Modelled from the spec: the synchronous response to a manual
trigger — accepted when idle, rejected with reason busy while the
same task is mid-run. -/
def manualTrigger (s : TaskState) : TriggerResult :=
  if s.runCount = 0 then ⟨true, none⟩ else ⟨false, some "busy"⟩

/-- Modelled from the spec: whether a scheduled tick arriving in state
`s` is skipped and logged rather than run or queued. -/
def tickSkipped (s : TaskState) : Bool :=
  decide (s.runCount ≠ 0)

/-- Modelled from the spec: run the scheduler for one task from the
idle initial state through a sequence of events. -/
def runSched (evs : List SchedEvent) : TaskState :=
  evs.foldl schedStep ⟨0⟩

/-- Helper: `schedStep` preserves the at-most-one-running invariant. -/
theorem schedStep_runCount_le_one (s : TaskState) (h : s.runCount ≤ 1) :
    ∀ ev : SchedEvent, (schedStep s ev).runCount ≤ 1 := by
  intro ev
  cases ev <;> simp only [schedStep]
  · split
    · simp
    · exact h
  · split
    · simp
    · exact h
  · show s.runCount - 1 ≤ 1
    omega

/-- Helper: folding `schedStep` preserves the invariant. -/
theorem runSched_invariant (evs : List SchedEvent) :
    ∀ s : TaskState, s.runCount ≤ 1 → (evs.foldl schedStep s).runCount ≤ 1 := by
  induction evs with
  | nil => intro s h; simpa using h
  | cons ev rest ih =>
      intro s h
      exact ih (schedStep s ev) (schedStep_runCount_le_one s h ev)

/-- Claim C5: from the idle initial state, no two invocations of the
same task ever execute concurrently (the running count never exceeds
one after any event sequence); a scheduled tick that fires while the
task is mid-run is skipped and leaves the state unchanged (not queued);
and a manual trigger issued mid-run returns accepted = false with
reason busy. -/
theorem scheduler_serializes_runs (evs : List SchedEvent) (s : TaskState)
    (hbusy : 1 ≤ s.runCount) :
    (runSched evs).runCount ≤ 1 ∧
    tickSkipped s = true ∧
    schedStep s SchedEvent.tick = s ∧
    manualTrigger s = ⟨false, some "busy"⟩ := by
  refine ⟨runSched_invariant evs ⟨0⟩ (by simp), ?_, ?_, ?_⟩
  · simp only [tickSkipped, decide_eq_true_eq]
    omega
  · simp only [schedStep]
    rw [if_neg (by omega)]
  · simp only [manualTrigger]
    rw [if_neg (by omega)]

/-- Witness for C5: a tick starts a run, a second tick and a manual
trigger arrive mid-run. -/
theorem scheduler_serializes_runs_witness :
    (runSched [SchedEvent.tick, SchedEvent.tick, SchedEvent.manual,
        SchedEvent.finish]).runCount ≤ 1 ∧
    tickSkipped ⟨1⟩ = true ∧
    schedStep ⟨1⟩ SchedEvent.tick = ⟨1⟩ ∧
    manualTrigger ⟨1⟩ = ⟨false, some "busy"⟩ :=
  scheduler_serializes_runs
    [SchedEvent.tick, SchedEvent.tick, SchedEvent.manual, SchedEvent.finish]
    ⟨1⟩ (by decide)

/-! ## API key generation (from the source, `generateApiKey`) -/

/-- The standard base64 alphabet character for a 6-bit value, as used by
the Node `Buffer.toString` base64 encoding. -/
def base64Char (n : Nat) : Char :=
  if n < 26 then Char.ofNat (65 + n)
  else if n < 52 then Char.ofNat (97 + (n - 26))
  else if n < 62 then Char.ofNat (48 + (n - 52))
  else if n = 62 then '+'
  else '/'

/-- Standard base64 encoding of a byte sequence, with padding, as
produced by the Node `Buffer.toString` base64 encoding. -/
def base64Encode : List Nat → List Char
  | [] => []
  | [b1] => [base64Char (b1 / 4), base64Char (b1 % 4 * 16), '=', '=']
  | [b1, b2] =>
      [base64Char (b1 / 4), base64Char (b1 % 4 * 16 + b2 / 16),
        base64Char (b2 % 16 * 4), '=']
  | b1 :: b2 :: b3 :: rest =>
      base64Char (b1 / 4) :: base64Char (b1 % 4 * 16 + b2 / 16) ::
        base64Char (b2 % 16 * 4 + b3 / 64) :: base64Char (b3 % 64) ::
        base64Encode rest

/-- Embeds `generateApiKey` from the API-keys route: base64-encode the
random bytes, replace every plus with a dash and every slash with an
underscore, and drop every padding equals sign. -/
def generateApiKey (bytes : List Nat) : List Char :=
  (((base64Encode bytes).map (fun c => if c = '+' then '-' else c)).map
      (fun c => if c = '/' then '_' else c)).filter (fun c => !(c == '='))

/-- A character of the standard base64 alphabet. -/
def isB64Char (c : Char) : Bool :=
  c.isUpper || c.isLower || c.isDigit || c == '+' || c == '/'

/-- A URL-safe base64 character: letters, digits, dash, underscore. -/
def urlSafeChar (c : Char) : Bool :=
  c.isUpper || c.isLower || c.isDigit || c == '-' || c == '_'

/-- Helper: every 6-bit value maps into the base64 alphabet. -/
theorem base64Char_isB64 : ∀ n : Nat, n < 64 → isB64Char (base64Char n) = true := by
  decide

/-- Helper: every character emitted by the encoder for byte input is a
base64 alphabet character or the padding equals sign. -/
theorem base64Encode_chars (bytes : List Nat) (hb : ∀ b ∈ bytes, b < 256) :
    ∀ c ∈ base64Encode bytes, isB64Char c = true ∨ c = '=' := by
  induction bytes using base64Encode.induct with
  | case1 => intro c hc; simp [base64Encode] at hc
  | case2 b1 =>
      intro c hc
      have h1 : b1 < 256 := hb b1 (by simp)
      simp only [base64Encode, List.mem_cons, List.not_mem_nil, or_false] at hc
      rcases hc with h | h | h | h
      · exact Or.inl (h ▸ base64Char_isB64 _ (by omega))
      · exact Or.inl (h ▸ base64Char_isB64 _ (by omega))
      · exact Or.inr h
      · exact Or.inr h
  | case3 b1 b2 =>
      intro c hc
      have h1 : b1 < 256 := hb b1 (by simp)
      have h2 : b2 < 256 := hb b2 (by simp)
      simp only [base64Encode, List.mem_cons, List.not_mem_nil, or_false] at hc
      rcases hc with h | h | h | h
      · exact Or.inl (h ▸ base64Char_isB64 _ (by omega))
      · exact Or.inl (h ▸ base64Char_isB64 _ (by omega))
      · exact Or.inl (h ▸ base64Char_isB64 _ (by omega))
      · exact Or.inr h
  | case4 b1 b2 b3 rest ih =>
      intro c hc
      have h1 : b1 < 256 := hb b1 (by simp)
      have h2 : b2 < 256 := hb b2 (by simp)
      have h3 : b3 < 256 := hb b3 (by simp)
      have hrest : ∀ b ∈ rest, b < 256 := fun b hbm => hb b (by simp [hbm])
      simp only [base64Encode, List.mem_cons] at hc
      rcases hc with h | h | h | h | h
      · exact Or.inl (h ▸ base64Char_isB64 _ (by omega))
      · exact Or.inl (h ▸ base64Char_isB64 _ (by omega))
      · exact Or.inl (h ▸ base64Char_isB64 _ (by omega))
      · exact Or.inl (h ▸ base64Char_isB64 _ (by omega))
      · exact ih hrest c h

/-- Claim C8: every string returned by `generateApiKey` consists only
of URL-safe base64 characters, with no plus, slash or equals, for every
32-byte input. -/
theorem generateApiKey_urlSafe (bytes : List Nat)
    (hlen : bytes.length = 32) (hb : ∀ b ∈ bytes, b < 256) :
    ∀ c ∈ generateApiKey bytes,
      urlSafeChar c = true ∧ c ≠ '+' ∧ c ≠ '/' ∧ c ≠ '=' := by
  intro c hc
  simp only [generateApiKey, List.mem_filter, List.mem_map] at hc
  obtain ⟨⟨c1, ⟨c0, hc0, hc1⟩, hc2⟩, hne⟩ := hc
  have hb64 := base64Encode_chars bytes hb c0 hc0
  subst hc1 hc2
  by_cases hp : c0 = '+'
  · subst hp
    exact ⟨by decide, by decide, by decide, by decide⟩
  · by_cases hs : c0 = '/'
    · subst hs
      exact ⟨by decide, by decide, by decide, by decide⟩
    · rcases hb64 with hb64 | heq
      · have hclass : (c0.isUpper || c0.isLower || c0.isDigit) = true := by
          simp only [isB64Char, Bool.or_eq_true, beq_iff_eq] at hb64
          rcases hb64 with (((h | h) | h) | h) | h
          · simp [h]
          · simp [h]
          · simp [h]
          · exact absurd h hp
          · exact absurd h hs
        simp only [if_neg hp, if_neg hs]
        refine ⟨?_, hp, hs, ?_⟩
        · simp only [urlSafeChar, Bool.or_eq_true] at hclass ⊢
          tauto
        · rintro rfl
          revert hclass
          decide
      · subst heq
        exact absurd hne (by decide)

/-- Witness for C8: the first character of the key generated from the
all-zero 32-byte input is URL-safe. -/
theorem generateApiKey_urlSafe_witness :
    urlSafeChar 'A' = true ∧ 'A' ≠ '+' ∧ 'A' ≠ '/' ∧ 'A' ≠ '=' :=
  generateApiKey_urlSafe (List.replicate 32 0) (by decide)
    (by decide) 'A' (by decide)

/-! ## IP whitelist middleware (from the source, `isIpWhitelisted`) -/

/-- Split a character list on a separator, like the JavaScript string
split method: the empty input yields one empty field. -/
def splitOnChar (sep : Char) : List Char → List (List Char)
  | [] => [[]]
  | c :: rest =>
      let r := splitOnChar sep rest
      if c = sep then [] :: r
      else
        match r with
        | [] => [[c]]
        | h :: t => (c :: h) :: t

/-- Join fields with a separator, like the JavaScript array join
method. -/
def joinWith (sep : Char) : List (List Char) → List Char
  | [] => []
  | [x] => x
  | x :: xs => x ++ sep :: joinWith sep xs

/-- Parse a leading run of decimal digits, like JavaScript parseInt in
base ten: none when the input does not start with a digit (NaN). -/
def parseIntDec (s : List Char) : Option Nat :=
  match s.takeWhile (fun c => c.isDigit) with
  | [] => none
  | ds => some (ds.foldl (fun a c => a * 10 + (c.toNat - 48)) 0)

/-- The parsed CIDR prefix length of a whitelist entry: the digits
after the first slash. -/
def cidrLen (w : List Char) : Option Nat :=
  parseIntDec (((splitOnChar '/' w).drop 1).headD [])

/-- Embeds `isIpWhitelisted` from the middleware: loopback addresses
always pass; otherwise an entry matches exactly, or by CIDR comparison
of dotted octets, supported only for prefix lengths 24, 16 and 8. -/
def isIpWhitelisted (whitelist : List (List Char)) (ip : List Char) : Bool :=
  if ip = "127.0.0.1".toList ∨ ip = "::1".toList ∨ ip = "localhost".toList then
    true
  else
    whitelist.any (fun w =>
      if w = ip then true
      else if w.contains '/' then
        let network := (splitOnChar '/' w).headD []
        if cidrLen w = some 24 then
          joinWith '.' ((splitOnChar '.' network).take 3) =
            joinWith '.' ((splitOnChar '.' ip).take 3)
        else if cidrLen w = some 16 then
          joinWith '.' ((splitOnChar '.' network).take 2) =
            joinWith '.' ((splitOnChar '.' ip).take 2)
        else if cidrLen w = some 8 then
          (splitOnChar '.' network).headD [] = (splitOnChar '.' ip).headD []
        else false
      else false)

/-- Claim C9: CIDR whitelist entries match only for prefix lengths 8,
16 and 24 — a whitelist made solely of CIDR entries with any other
prefix length rejects every non-loopback address, while the loopback
addresses always pass for every whitelist. -/
theorem isIpWhitelisted_cidr_lengths (wl : List (List Char)) (ip : List Char)
    (hip1 : ip ≠ "127.0.0.1".toList) (hip2 : ip ≠ "::1".toList)
    (hip3 : ip ≠ "localhost".toList)
    (hnos : ip.contains '/' = false)
    (hw : ∀ w ∈ wl, w.contains '/' = true ∧ cidrLen w ≠ some 8 ∧
      cidrLen w ≠ some 16 ∧ cidrLen w ≠ some 24) :
    isIpWhitelisted wl ip = false ∧
    (∀ wl2 : List (List Char),
      isIpWhitelisted wl2 ("127.0.0.1".toList) = true ∧
      isIpWhitelisted wl2 ("::1".toList) = true ∧
      isIpWhitelisted wl2 ("localhost".toList) = true) := by
  constructor
  · unfold isIpWhitelisted
    rw [if_neg (fun h => h.elim hip1 (fun h2 => h2.elim hip2 hip3))]
    rw [List.any_eq_false]
    intro w hwmem
    obtain ⟨hslash, h8, h16, h24⟩ := hw w hwmem
    have hwne : w ≠ ip := by
      intro h
      rw [h, hnos] at hslash
      exact Bool.false_ne_true hslash
    simp only [if_neg hwne, hslash, if_neg h24, if_neg h16, if_neg h8]
    simp
  · intro wl2
    refine ⟨?_, ?_, ?_⟩ <;> simp [isIpWhitelisted]

/-- Witness for C9: entries with prefix lengths 12, 20 and 32 never
match the address 10.0.0.1, and loopback always passes. -/
theorem isIpWhitelisted_cidr_lengths_witness :
    isIpWhitelisted ["10.0.0.0/20".toList, "192.168.0.0/12".toList,
        "10.0.0.1/32".toList] ("10.0.0.1".toList) = false ∧
    (∀ wl2 : List (List Char),
      isIpWhitelisted wl2 ("127.0.0.1".toList) = true ∧
      isIpWhitelisted wl2 ("::1".toList) = true ∧
      isIpWhitelisted wl2 ("localhost".toList) = true) :=
  isIpWhitelisted_cidr_lengths
    ["10.0.0.0/20".toList, "192.168.0.0/12".toList, "10.0.0.1/32".toList]
    ("10.0.0.1".toList)
    (by decide) (by decide) (by decide) (by decide) (by decide)

/-! ## API key DELETE and PATCH handlers (from the source) -/

/-- A row of the api_keys table, with the fields the DELETE and PATCH
handlers read or write. -/
structure ApiKeyRow where
  id : List Char
  name : List Char
  enabled : Bool
deriving DecidableEq, Repr

/-- A JSON value, as far as the enabled field of the PATCH handler is
concerned. -/
inductive JValue where
  | jbool : Bool → JValue
  | jnum : Int → JValue
  | jstr : List Char → JValue
  | jnull : JValue
deriving DecidableEq, Repr

/-- The id extracted from the request pathname: the last slash-separated
component, as in the pathname split and pop of the handlers. -/
def extractId (pathname : List Char) : List Char :=
  (splitOnChar '/' pathname).getLastD []

/-- Embeds the DELETE handler: 400 when the id is missing, 404 when no
row has that id, otherwise delete the row; returns the status code and
the resulting api_keys table. -/
def DELETE (table : List ApiKeyRow) (pathname : List Char) : Nat × List ApiKeyRow :=
  let id := extractId pathname
  if id = [] then (400, table)
  else
    match table.find? (fun r => decide (r.id = id)) with
    | none => (404, table)
    | some _ => (200, table.filter (fun r => !decide (r.id = id)))

/-- Embeds the PATCH handler: 400 when the id is missing or the enabled
value is not a boolean, 404 when no row has that id, otherwise update
the enabled flag of the row; returns the status code and the resulting
api_keys table. -/
def PATCH (table : List ApiKeyRow) (pathname : List Char) (enabled : JValue) :
    Nat × List ApiKeyRow :=
  let id := extractId pathname
  if id = [] then (400, table)
  else
    match enabled with
    | JValue.jbool b =>
        match table.find? (fun r => decide (r.id = id)) with
        | none => (404, table)
        | some _ =>
            (200, table.map (fun r => if r.id = id then { r with enabled := b } else r))
    | _ => (400, table)

/-- Claim C10: a DELETE or PATCH for an id not present in the api_keys
table returns 404 with the table unchanged, and a PATCH with a
non-boolean enabled value returns 400 with the table unchanged — every
error response leaves the table exactly as it was. -/
theorem apiKey_errors_leave_table (table : List ApiKeyRow)
    (pathname id : List Char) (b : Bool) (enabled : JValue)
    (hid : extractId pathname = id) (hne : id ≠ [])
    (hmiss : table.find? (fun r => decide (r.id = id)) = none)
    (hnb : ∀ v : Bool, enabled ≠ JValue.jbool v) :
    DELETE table pathname = (404, table) ∧
    PATCH table pathname (JValue.jbool b) = (404, table) ∧
    PATCH table pathname enabled = (400, table) := by
  subst hid
  refine ⟨?_, ?_, ?_⟩
  · simp only [DELETE, if_neg hne, hmiss]
  · simp only [PATCH, if_neg hne, hmiss]
  · cases enabled with
    | jbool v => exact absurd rfl (hnb v)
    | jnum n => simp only [PATCH, if_neg hne]
    | jstr s => simp only [PATCH, if_neg hne]
    | jnull => simp only [PATCH, if_neg hne]

/-- Witness for C10: a one-row table, a request for an absent id, and a
string-valued enabled field. -/
theorem apiKey_errors_leave_table_witness :
    DELETE [⟨"key_abc".toList, "test".toList, true⟩]
        ("/api/api-keys/key_xyz".toList) =
      (404, [⟨"key_abc".toList, "test".toList, true⟩]) ∧
    PATCH [⟨"key_abc".toList, "test".toList, true⟩]
        ("/api/api-keys/key_xyz".toList) (JValue.jbool true) =
      (404, [⟨"key_abc".toList, "test".toList, true⟩]) ∧
    PATCH [⟨"key_abc".toList, "test".toList, true⟩]
        ("/api/api-keys/key_xyz".toList) (JValue.jstr ("yes".toList)) =
      (400, [⟨"key_abc".toList, "test".toList, true⟩]) :=
  apiKey_errors_leave_table [⟨"key_abc".toList, "test".toList, true⟩]
    ("/api/api-keys/key_xyz".toList) ("key_xyz".toList) true
    (JValue.jstr ("yes".toList))
    (by decide) (by decide) (by decide) (by decide)
